import Mathlib

/- Shallow embedding of src/app.py, a Streamlit + Google-Sheets personal
   ledger.  Float amounts are modelled as rationals; pandas NaN/NaT cells
   are modelled as Option values (pd.to_datetime / pd.to_numeric with
   errors="coerce" yield NaT/NaN, embedded as none). -/

/-- A calendar date (year, month, day).  Python `datetime.date` compares
lexicographically on (year, month, day). -/
structure Date where
  y : Nat
  m : Nat
  d : Nat
  deriving DecidableEq, Repr

/-- Python `a < b` on dates: lexicographic strict order. -/
def dateLtB (a b : Date) : Bool :=
  decide (a.y < b.y) ||
    (decide (a.y = b.y) &&
      (decide (a.m < b.m) || (decide (a.m = b.m) && decide (a.d < b.d))))

/-- One normalized row of the transactions dataframe after
`load_transactions_df` (src/app.py lines 30-41): `txn_date` is a date or
NaT (none), `amount` has been coerced with `fillna(0.0)`, text columns are
kept as read (a blank/missing account cell is NaN, i.e. none). -/
structure Record where
  txn_date : Option Date
  type : String
  amount : ℚ
  payment_mode : String
  description : String
  account : Option String
  sub_account : String
  created_at : String
  deriving DecidableEq, Repr

/-- A raw row before dtype coercion: `txn_date` and `amount` carry the
outcome of pandas parsing (none = unparsable/missing, the actual
string-to-value parser being external to this repository). -/
structure RawRow where
  txn_date : Option Date
  type : String
  amount : Option ℚ
  payment_mode : String
  description : String
  account : Option String
  sub_account : String
  created_at : String

/-- Lines 37-40 of src/app.py: `pd.to_datetime(..., errors="coerce")`
keeps the NaT sentinel, `pd.to_numeric(..., errors="coerce").fillna(0.0)`
turns an unparsable amount into 0.0.  (Named `normalizeRow` because
Mathlib already claims `normalize`.) -/
def normalizeRow (r : RawRow) : Record :=
  { txn_date := r.txn_date
    type := r.type
    amount := r.amount.getD 0
    payment_mode := r.payment_mode
    description := r.description
    account := r.account
    sub_account := r.sub_account
    created_at := r.created_at }

/-- Lines 116-117: `float(r["amount"]) if r["type"]=="credit" else
-float(r["amount"])`. -/
def signed (r : Record) : ℚ :=
  if r.type = "credit" then r.amount else -r.amount

/-- The account selector: `"-- All --"` or a specific account name. -/
inductive AccountFilter where
  | all : AccountFilter
  | acct (name : String) : AccountFilter

/-- Lines 105-108: `df_account = df` for `-- All --`, else
`df[df["account"] == sel_account]` (a NaN account never equals a
string, so null-account rows are dropped by any specific filter). -/
def accountFilter (flt : AccountFilter) (rs : List Record) : List Record :=
  match flt with
  | .all => rs
  | .acct a => rs.filter (fun r => r.account == some a)

/-- Line 102: `first_day = month_picker.replace(day=1)`. -/
def firstDay (picker : Date) : Date :=
  ⟨picker.y, picker.m, 1⟩

/-- Line 103: `next_month = (first_day + relativedelta(months=1)).replace(day=1)`;
adding one month to a day-1 date increments the month, rolling December
into January of the next year, and the day is then reset to 1. -/
def nextMonthFirstDay (picker : Date) : Date :=
  let fd := firstDay picker
  if fd.m == 12 then ⟨fd.y + 1, 1, 1⟩ else ⟨fd.y, fd.m + 1, 1⟩

/-- Line 111 row predicate: `txn_date < first_day`; a NaT date compares
false against everything. -/
def beforeB (ref : Date) (r : Record) : Bool :=
  match r.txn_date with
  | some dt => dateLtB dt (firstDay ref)
  | none => false

/-- Line 112 row predicate: `first_day <= txn_date < next_month`; NaT
comparisons are false. -/
def inMonthB (ref : Date) (r : Record) : Bool :=
  match r.txn_date with
  | some dt => !dateLtB dt (firstDay ref) && dateLtB dt (nextMonthFirstDay ref)
  | none => false

/-- The `after` partition of spec section 8: `txn_date >= nextMonthFirstDay`
(no such dataframe exists in the code; the predicate is the same pandas
comparison shape as lines 111-112, NaT again comparing false). -/
def afterB (ref : Date) (r : Record) : Bool :=
  match r.txn_date with
  | some dt => !dateLtB dt (nextMonthFirstDay ref)
  | none => false

/-- Sum of the `signed` column. -/
def sumSigned (rs : List Record) : ℚ :=
  (rs.map signed).sum

/-- Lines 119-120: `df["signed"].sum() if not df.empty else 0.0`. -/
def sumOrZero (rs : List Record) : ℚ :=
  if rs.isEmpty then 0 else sumSigned rs

/-- The three displayed metrics (lines 119-125). -/
structure Summary where
  carryForward : ℚ
  monthNet : ℚ
  newBalance : ℚ
  deriving DecidableEq, Repr

/-- Lines 105-121: filter by account, partition by date window, sum the
signed amounts, and add carry-forward and month net. -/
def computeSummary (rs : List Record) (flt : AccountFilter) (refMonth : Date) : Summary :=
  let df_account := accountFilter flt rs
  let df_before := df_account.filter (beforeB refMonth)
  let df_month := df_account.filter (inMonthB refMonth)
  let carry_forward := sumOrZero df_before
  let month_net := sumOrZero df_month
  { carryForward := carry_forward
    monthNet := month_net
    newBalance := carry_forward + month_net }

/-- Outcome of the summary section: either the empty-state message or the
three metrics. -/
inductive SummaryResult where
  | noData : SummaryResult
  | summary (s : Summary) : SummaryResult
  deriving DecidableEq, Repr

/-- Lines 93-125: `if df.empty: st.info("No transactions yet.") else:`
compute and render the summary.  The no-data signal depends only on the
unfiltered dataframe. -/
def runSummary (rs : List Record) (flt : AccountFilter) (refMonth : Date) : SummaryResult :=
  if rs.isEmpty then .noData else .summary (computeSummary rs flt refMonth)

/-- Line 98: `sorted(df["account"].dropna().unique().tolist())` —
drop null accounts, keep first occurrences of distinct values, sort
ascending. -/
def listAccounts (rs : List Record) : List String :=
  List.insertionSort (fun a b => a ≤ b) (rs.filterMap Record.account).dedup

/-- Sort key of line 129, as a Boolean: `a` may precede `b` in
`sort_values(by=["txn_date"], ascending=False)` output (descending by
date, NaT rows placed last). -/
def recentOrderB (a b : Record) : Bool :=
  match a.txn_date, b.txn_date with
  | some x, some y => !dateLtB x y
  | some _, none => true
  | none, some _ => false
  | none, none => true

/-- Propositional form of the sort key, for `List.insertionSort`. -/
def recentOrder (a b : Record) : Prop :=
  recentOrderB a b = true

instance : DecidableRel recentOrder :=
  fun a b => inferInstanceAs (Decidable (recentOrderB a b = true))

/-- Line 129: `df.sort_values(by=["txn_date"], ascending=False).head(200)`.
The pandas sort is an unstable quicksort; insertion sort here is one
witnessing order, and every theorem below uses only properties shared by
all orderings consistent with the key. -/
def listRecent (rs : List Record) : List Record :=
  (List.insertionSort recentOrder rs).take 200

/-- Python `str.strip()` on the character list of a string. -/
def stripChars (l : List Char) : List Char :=
  ((l.dropWhile Char.isWhitespace).reverse.dropWhile Char.isWhitespace).reverse

/-- Python `account_choice.strip()`. -/
def pyStrip (s : String) : String :=
  ⟨stripChars s.data⟩

/-- Line 71: `account = account_choice.strip() or ("-- Select --" if
account_choice=="" else "")` — Python `or` returns the left string when it
is non-empty (truthy). -/
def accountField (choice : String) : String :=
  let stripped := pyStrip choice
  if stripped == "" then (if choice == "" then "-- Select --" else "") else stripped

/-- The integer number of cents encoded by `f"{amount:.2f}"` (line 77):
round to the nearest hundredth.  Exact decimal ties like 10.005 are not
representable in binary floating point, so for every value the widget can
produce this agrees with Python's formatting. -/
def storedAmountInt (q : ℚ) : ℤ :=
  round (q * 100)

/-- The numeric value the persisted two-decimal string denotes. -/
def storedAmount (q : ℚ) : ℚ :=
  (storedAmountInt q : ℚ) / 100

/-- Left-pad to two digits. -/
def pad2 (n : Nat) : String :=
  if n < 10 then "0" ++ toString n else toString n

/-- Left-pad to four digits. -/
def pad4 (n : Nat) : String :=
  if n < 10 then "000" ++ toString n
  else if n < 100 then "00" ++ toString n
  else if n < 1000 then "0" ++ toString n
  else toString n

/-- Python `date.isoformat()`. -/
def dateIso (dt : Date) : String :=
  pad4 dt.y ++ "-" ++ pad2 dt.m ++ "-" ++ pad2 dt.d

/-- Line 77: `f"{amount:.2f}"`. -/
def fmt2 (q : ℚ) : String :=
  let n := storedAmountInt q
  ((if n < 0 then "-" else "") ++ toString (n.natAbs / 100)) ++ "." ++ pad2 (n.natAbs % 100)

/-- Lines 74-83: the appended row, in header order. -/
def buildRow (txn_date : Date) (txn_type : String) (amount : ℚ)
    (payment_mode description account_choice sub_account created_at : String) :
    List String :=
  [dateIso txn_date, txn_type, fmt2 amount, payment_mode, description,
    accountField account_choice, sub_account, created_at]

/-- Does the account filter keep this row (lines 105-108, as a row
predicate)? -/
def keepB (flt : AccountFilter) (r : Record) : Bool :=
  match flt with
  | .all => true
  | .acct a => r.account == some a

/-- Scenario record of spec section 8: 2024-01-15, credit, 100. -/
def recCredit100 : Record :=
  { txn_date := some ⟨2024, 1, 15⟩, type := "credit", amount := 100,
    payment_mode := "cash", description := "", account := some ("A"),
    sub_account := "", created_at := "" }

/-- Scenario record of spec section 8: 2024-02-10, debit, 30. -/
def recDebit30 : Record :=
  { txn_date := some ⟨2024, 2, 10⟩, type := "debit", amount := 30,
    payment_mode := "cash", description := "", account := some ("A"),
    sub_account := "", created_at := "" }

/-- Scenario record of spec section 8: 2024-02-20, credit, 5. -/
def recCredit5 : Record :=
  { txn_date := some ⟨2024, 2, 20⟩, type := "credit", amount := 5,
    payment_mode := "cash", description := "", account := some ("A"),
    sub_account := "", created_at := "" }

/-- The three scenario records of spec section 8. -/
def scenarioRecords : List Record :=
  [recCredit100, recDebit30, recCredit5]

/-- A record whose `type` is neither "debit" nor "credit". -/
def recTransfer : Record :=
  { txn_date := some ⟨2024, 3, 1⟩, type := "transfer", amount := 7,
    payment_mode := "bank", description := "", account := some ("A"),
    sub_account := "", created_at := "" }

/-- A record with a null (unparsable) date and a nonzero amount. -/
def recNullDate : Record :=
  { txn_date := none, type := "debit", amount := 5,
    payment_mode := "cash", description := "", account := some ("A"),
    sub_account := "", created_at := "" }

/-- A record under account "A". -/
def recA : Record :=
  { txn_date := some ⟨2024, 1, 5⟩, type := "credit", amount := 10,
    payment_mode := "cash", description := "", account := some ("A"),
    sub_account := "", created_at := "" }

/-- A record with a null/empty account cell. -/
def recNullAcct : Record :=
  { txn_date := some ⟨2024, 1, 6⟩, type := "debit", amount := 3,
    payment_mode := "cash", description := "", account := none,
    sub_account := "", created_at := "" }

/-- A raw row whose amount cell failed to parse. -/
def rawNoAmount : RawRow :=
  { txn_date := some ⟨2024, 2, 3⟩, type := "debit", amount := none,
    payment_mode := "cash", description := "", account := some ("A"),
    sub_account := "", created_at := "" }

/-- A raw row whose date cell failed to parse. -/
def rawNoDate : RawRow :=
  { txn_date := none, type := "credit", amount := some 9,
    payment_mode := "cash", description := "", account := some ("A"),
    sub_account := "", created_at := "" }

/-- Null-date rows can only be followed by null-date rows. -/
def nullDatesLast (l : List Record) : Prop :=
  ∀ i j : Fin l.length, (i : Nat) < (j : Nat) →
    (l.get i).txn_date = none → (l.get j).txn_date = none

lemma dateLtB_iff (a b : Date) :
    dateLtB a b = true ↔
      (a.y < b.y ∨ (a.y = b.y ∧ (a.m < b.m ∨ (a.m = b.m ∧ a.d < b.d)))) := by
  simp [dateLtB]

lemma dateLtB_false_iff (a b : Date) :
    dateLtB a b = false ↔
      ¬ (a.y < b.y ∨ (a.y = b.y ∧ (a.m < b.m ∨ (a.m = b.m ∧ a.d < b.d)))) := by
  rw [← dateLtB_iff]
  cases dateLtB a b <;> simp

lemma dateGeB_trans {a b c : Date} (h1 : dateLtB a b = false)
    (h2 : dateLtB b c = false) : dateLtB a c = false := by
  rw [dateLtB_false_iff] at h1 h2 ⊢
  omega

lemma dateLtB_asymm {a b : Date} (h : dateLtB a b = true) :
    dateLtB b a = false := by
  rw [dateLtB_iff] at h
  rw [dateLtB_false_iff]
  omega

lemma firstDay_ltB_nextMonth (ref : Date) :
    dateLtB (firstDay ref) (nextMonthFirstDay ref) = true := by
  rw [dateLtB_iff]
  unfold nextMonthFirstDay firstDay
  by_cases h : ref.m = 12 <;> simp [h]

lemma dateLtB_first_imp_next {dt ref : Date}
    (h : dateLtB dt (firstDay ref) = true) :
    dateLtB dt (nextMonthFirstDay ref) = true := by
  have hfn := firstDay_ltB_nextMonth ref
  rw [dateLtB_iff] at h hfn ⊢
  omega

lemma sumSigned_nil : sumSigned [] = 0 := rfl

lemma sumSigned_cons (r : Record) (l : List Record) :
    sumSigned (r :: l) = signed r + sumSigned l := by
  simp [sumSigned]

lemma sumOrZero_eq (l : List Record) : sumOrZero l = sumSigned l := by
  cases l <;> simp [sumOrZero, sumSigned]

lemma accountFilter_cons (flt : AccountFilter) (r : Record) (rs : List Record) :
    accountFilter flt (r :: rs) =
      if keepB flt r then r :: accountFilter flt rs else accountFilter flt rs := by
  cases flt <;> simp [accountFilter, keepB, List.filter_cons]

lemma computeSummary_fields (rs : List Record) (flt : AccountFilter) (ref : Date) :
    computeSummary rs flt ref =
      { carryForward := sumSigned ((accountFilter flt rs).filter (beforeB ref))
        monthNet := sumSigned ((accountFilter flt rs).filter (inMonthB ref))
        newBalance := sumSigned ((accountFilter flt rs).filter (beforeB ref)) +
          sumSigned ((accountFilter flt rs).filter (inMonthB ref)) } := by
  simp [computeSummary, sumOrZero_eq]

lemma sumSigned_filter_cons (p : Record → Bool) (r : Record) (l : List Record) :
    sumSigned ((r :: l).filter p) =
      (if p r then signed r else 0) + sumSigned (l.filter p) := by
  by_cases h : p r <;> simp [List.filter_cons, h, sumSigned_cons]

/-- Prepending a row that contributes nothing to either dated partition
leaves the whole summary unchanged. -/
lemma computeSummary_cons_zero (r : Record) (rs : List Record)
    (flt : AccountFilter) (ref : Date)
    (h1 : beforeB ref r = true → signed r = 0)
    (h2 : inMonthB ref r = true → signed r = 0) :
    computeSummary (r :: rs) flt ref = computeSummary rs flt ref := by
  have key : ∀ p : Record → Bool, (p r = true → signed r = 0) →
      sumSigned ((accountFilter flt (r :: rs)).filter p) =
        sumSigned ((accountFilter flt rs).filter p) := by
    intro p hp
    rw [accountFilter_cons]
    by_cases hk : keepB flt r
    · rw [if_pos hk, sumSigned_filter_cons]
      by_cases hpr : p r
      · rw [if_pos hpr, hp hpr, zero_add]
      · rw [if_neg hpr, zero_add]
    · rw [if_neg hk]
  rw [computeSummary_fields, computeSummary_fields,
    key (beforeB ref) h1, key (inMonthB ref) h2]

lemma mem_listAccounts {rs : List Record} {a : String} :
    a ∈ listAccounts rs ↔ ∃ r ∈ rs, r.account = some a := by
  unfold listAccounts
  rw [List.mem_insertionSort, List.mem_dedup, List.mem_filterMap]

instance : IsTotal Record recentOrder where
  total a b := by
    unfold recentOrder recentOrderB
    rcases ha : a.txn_date with _ | x <;> rcases hb : b.txn_date with _ | y <;>
      simp [ha, hb]
    cases hxy : dateLtB x y with
    | false => left; rfl
    | true => right; rw [dateLtB_asymm hxy]

instance : IsTrans Record recentOrder where
  trans a b c hab hbc := by
    unfold recentOrder recentOrderB at *
    rcases ha : a.txn_date with _ | x <;> rcases hb : b.txn_date with _ | y <;>
      rcases hc : c.txn_date with _ | z <;> simp [ha, hb, hc] at hab hbc ⊢
    exact dateGeB_trans hab hbc

lemma mem_listRecent_of_length_le {r : Record} {rs : List Record}
    (hr : r ∈ rs) (hlen : rs.length ≤ 200) : r ∈ listRecent rs := by
  unfold listRecent
  rw [List.take_of_length_le (by rw [List.length_insertionSort]; exact hlen)]
  exact (List.mem_insertionSort recentOrder).2 hr

lemma listRecent_sorted (rs : List Record) :
    (listRecent rs).Sorted recentOrder := by
  unfold listRecent
  exact (List.sorted_insertionSort recentOrder rs).sublist
    (List.take_sublist _ _)

lemma listRecent_nullDatesLast (rs : List Record) :
    nullDatesLast (listRecent rs) := by
  intro i j hij hnone
  have hrel := (listRecent_sorted rs).rel_get_of_lt (a := i) (b := j) hij
  unfold recentOrder recentOrderB at hrel
  rcases hj : ((listRecent rs).get j).txn_date with _ | z
  · rfl
  · rw [hnone, hj] at hrel
    simp at hrel

/-- Summing `signed` over the before/inMonth/after partition collects
exactly the rows with a non-null date. -/
lemma partition_sum_aux (l : List Record) (ref : Date) :
    sumSigned (l.filter (beforeB ref))
      + sumSigned (l.filter (inMonthB ref))
      + sumSigned (l.filter (afterB ref))
    = sumSigned (l.filter (fun r => r.txn_date.isSome)) := by
  induction l with
  | nil => simp [sumSigned_nil]
  | cons r l ih =>
    rw [sumSigned_filter_cons, sumSigned_filter_cons, sumSigned_filter_cons,
      sumSigned_filter_cons]
    rcases hdt : r.txn_date with _ | dt
    · have hb : beforeB ref r = false := by simp [beforeB, hdt]
      have hm : inMonthB ref r = false := by simp [inMonthB, hdt]
      have ha : afterB ref r = false := by simp [afterB, hdt]
      rw [hb, hm, ha]
      simp only [hdt, Option.isSome_none, Bool.false_eq_true, if_false]
      linarith [ih]
    · simp only [Option.isSome_some, if_true]
      cases hbf : dateLtB dt (firstDay ref) with
      | true =>
        have hnm := dateLtB_first_imp_next hbf
        have hb : beforeB ref r = true := by simp [beforeB, hdt, hbf]
        have hm : inMonthB ref r = false := by simp [inMonthB, hdt, hbf]
        have ha : afterB ref r = false := by simp [afterB, hdt, hnm]
        rw [hb, hm, ha]
        simp only [Bool.false_eq_true, if_false, if_true]
        linarith [ih]
      | false =>
        cases hnm : dateLtB dt (nextMonthFirstDay ref) with
        | true =>
          have hb : beforeB ref r = false := by simp [beforeB, hdt, hbf]
          have hm : inMonthB ref r = true := by simp [inMonthB, hdt, hbf, hnm]
          have ha : afterB ref r = false := by simp [afterB, hdt, hnm]
          rw [hb, hm, ha]
          simp only [Bool.false_eq_true, if_false, if_true]
          linarith [ih]
        | false =>
          have hb : beforeB ref r = false := by simp [beforeB, hdt, hbf]
          have hm : inMonthB ref r = false := by simp [inMonthB, hdt, hbf, hnm]
          have ha : afterB ref r = true := by simp [afterB, hdt, hnm]
          rw [hb, hm, ha]
          simp only [Bool.false_eq_true, if_false, if_true]
          linarith [ih]

/-- C1: `computeSummary` returns carryForward = the sum of signed amounts
over the filtered records dated (non-null) strictly before the reference
month's first day, and monthNet = the sum over those dated inside the
month window, the empty partition summing to 0; on the spec's scenario
records with filter all and any day of February 2024 it yields
carryForward 100, monthNet -25, newBalance 75. -/
theorem computeSummary_carry_month_spec (rs : List Record)
    (flt : AccountFilter) (ref : Date) :
    (computeSummary rs flt ref).carryForward =
        sumSigned ((accountFilter flt rs).filter (beforeB ref))
    ∧ (computeSummary rs flt ref).monthNet =
        sumSigned ((accountFilter flt rs).filter (inMonthB ref))
    ∧ ∀ d : Nat, computeSummary scenarioRecords AccountFilter.all ⟨2024, 2, d⟩ =
        { carryForward := 100, monthNet := -25, newBalance := 75 } := by
  refine ⟨by rw [computeSummary_fields], by rw [computeSummary_fields], ?_⟩
  intro d
  have hday : computeSummary scenarioRecords AccountFilter.all ⟨2024, 2, d⟩ =
      computeSummary scenarioRecords AccountFilter.all ⟨2024, 2, 14⟩ := rfl
  rw [hday]
  simp [computeSummary, scenarioRecords, accountFilter, beforeB, inMonthB,
    firstDay, nextMonthFirstDay, dateLtB, sumOrZero, sumSigned, signed,
    recCredit100, recDebit30, recCredit5, List.filter]
  norm_num

/-- C2: a record's signed contribution is +amount when its type is
exactly "credit" and -amount otherwise; in particular a type that is
neither "debit" nor "credit" is signed as a debit. -/
theorem signed_sign_convention (r : Record)
    (_hd : r.type ≠ "debit") (hc : r.type ≠ "credit") :
    signed r = -r.amount
    ∧ ∀ s : Record, signed s = if s.type = "credit" then s.amount else -s.amount :=
  ⟨by simp [signed, hc], fun _ => rfl⟩

/-- C2 witness: a "transfer" record is signed as a debit. -/
theorem signed_sign_convention_witness :
    signed recTransfer = -recTransfer.amount :=
  (signed_sign_convention recTransfer (by decide) (by decide)).1

/-- C3: the window is firstDay = day 1 of the reference month and
nextMonthFirstDay = day 1 of the following month, December of year Y
rolling over to January 1 of year Y+1. -/
theorem month_window_rollover (picker : Date) (h12 : picker.m ≠ 12) :
    firstDay picker = ⟨picker.y, picker.m, 1⟩
    ∧ nextMonthFirstDay picker = ⟨picker.y, picker.m + 1, 1⟩
    ∧ ∀ y d : Nat, nextMonthFirstDay ⟨y, 12, d⟩ = ⟨y + 1, 1, 1⟩ := by
  refine ⟨rfl, ?_, fun y d => rfl⟩
  simp [nextMonthFirstDay, firstDay, h12]

/-- C3 witness: May 2024 yields June 1, and December 2023 yields
January 1 of 2024. -/
theorem month_window_rollover_witness :
    nextMonthFirstDay ⟨2024, 5, 17⟩ = ⟨2024, 6, 1⟩
    ∧ nextMonthFirstDay ⟨2023, 12, 31⟩ = ⟨2024, 1, 1⟩ :=
  ⟨(month_window_rollover ⟨2024, 5, 17⟩ (by decide)).2.1,
    (month_window_rollover ⟨2024, 5, 17⟩ (by decide)).2.2 2023 31⟩

/-- C4: newBalance is exactly carryForward + monthNet, for every record
set, filter and reference month. -/
theorem newBalance_eq_carry_add_month (rs : List Record)
    (flt : AccountFilter) (ref : Date) :
    (computeSummary rs flt ref).newBalance =
      (computeSummary rs flt ref).carryForward +
        (computeSummary rs flt ref).monthNet := rfl

/-- C5 (amended): the signed sum over before, inMonth and after together
equals the signed sum over the filtered records that carry a non-null
txn_date (null-date rows belong to no partition, so they are missing
from the whole-set total the original claim named). -/
theorem partition_sum_dated_total (rs : List Record)
    (flt : AccountFilter) (ref : Date) :
    sumSigned ((accountFilter flt rs).filter (beforeB ref))
      + sumSigned ((accountFilter flt rs).filter (inMonthB ref))
      + sumSigned ((accountFilter flt rs).filter (afterB ref))
    = sumSigned ((accountFilter flt rs).filter (fun r => r.txn_date.isSome)) :=
  partition_sum_aux (accountFilter flt rs) ref

/-- C5 counterexample: one null-date debit of 5 under the all filter:
the three partitions sum to 0 while the signed sum of the entire filtered
set is -5. -/
theorem partition_sum_counterexample :
    sumSigned ((accountFilter AccountFilter.all [recNullDate]).filter
        (beforeB ⟨2024, 2, 1⟩))
      + sumSigned ((accountFilter AccountFilter.all [recNullDate]).filter
        (inMonthB ⟨2024, 2, 1⟩))
      + sumSigned ((accountFilter AccountFilter.all [recNullDate]).filter
        (afterB ⟨2024, 2, 1⟩))
    ≠ sumSigned (accountFilter AccountFilter.all [recNullDate]) := by
  simp [accountFilter, recNullDate, beforeB, inMonthB, afterB, sumSigned,
    signed, List.filter]

/-- C6 (amended): an empty record set produces the no-data signal (and a
zero summary from the pure computation); a specific-account filter
matching no record produces the all-zero summary but, the input being
non-empty, the rendered result is the zeroed summary and not the no-data
signal, while `listAccounts` still lists the other accounts. -/
theorem empty_and_no_match_summary (rs : List Record) (a b : String)
    (flt : AccountFilter) (ref : Date) (hne : rs ≠ [])
    (hnm : ∀ r ∈ rs, r.account ≠ some a)
    (hb : ∃ r ∈ rs, r.account = some b) :
    runSummary [] flt ref = SummaryResult.noData
    ∧ computeSummary [] flt ref =
        { carryForward := 0, monthNet := 0, newBalance := 0 }
    ∧ computeSummary rs (AccountFilter.acct a) ref =
        { carryForward := 0, monthNet := 0, newBalance := 0 }
    ∧ runSummary rs (AccountFilter.acct a) ref =
        SummaryResult.summary { carryForward := 0, monthNet := 0, newBalance := 0 }
    ∧ b ∈ listAccounts rs := by
  have hfil : accountFilter (AccountFilter.acct a) rs = [] := by
    unfold accountFilter
    rw [List.filter_eq_nil_iff]
    intro r hr
    simp [hnm r hr]
  have hsum : computeSummary rs (AccountFilter.acct a) ref =
      { carryForward := 0, monthNet := 0, newBalance := 0 } := by
    rw [computeSummary_fields, hfil]
    simp [sumSigned_nil]
  have hempty : computeSummary [] flt ref =
      { carryForward := 0, monthNet := 0, newBalance := 0 } := by
    rw [computeSummary_fields]
    cases flt <;> simp [accountFilter, sumSigned_nil]
  have hie : ¬ (rs.isEmpty = true) := by simp [List.isEmpty_iff, hne]
  refine ⟨rfl, hempty, hsum, ?_, mem_listAccounts.2 hb⟩
  unfold runSummary
  rw [if_neg hie, hsum]

/-- C6 witness: one record under account "A", filter "B": zero summary,
rendered (no signal), and "A" still listed. -/
theorem empty_and_no_match_summary_witness :
    computeSummary [recA] (AccountFilter.acct ("B")) ⟨2024, 2, 14⟩ =
        { carryForward := 0, monthNet := 0, newBalance := 0 }
    ∧ "A" ∈ listAccounts [recA] := by
  have h := empty_and_no_match_summary [recA] ("B") ("A") AccountFilter.all
    ⟨2024, 2, 14⟩ (by simp) (by decide) ⟨recA, by simp, rfl⟩
  exact ⟨h.2.2.1, h.2.2.2.2⟩

/-- C6 counterexample: with one record under account "A" and the filter
set to account "B" nothing matches, yet the result is the rendered zero
summary, not the no-data signal the claim promises (the signal is tied to
the unfiltered set being empty). -/
theorem no_match_filter_signal_counterexample :
    runSummary [recA] (AccountFilter.acct ("B")) ⟨2024, 2, 14⟩ ≠
      SummaryResult.noData := by
  simp [runSummary]

/-- C7: a raw row whose amount failed to parse normalizes to amount 0.0
without error, changes no aggregate of the summary, and still appears in
the recent-transactions list (stated within the 200-row display cut). -/
theorem unparsable_amount_contributes_zero (raw : RawRow) (rs : List Record)
    (flt : AccountFilter) (ref : Date) (hamt : raw.amount = none)
    (hlen : rs.length + 1 ≤ 200) :
    (normalizeRow raw).amount = 0
    ∧ computeSummary (normalizeRow raw :: rs) flt ref = computeSummary rs flt ref
    ∧ normalizeRow raw ∈ listRecent (normalizeRow raw :: rs) := by
  have hz : signed (normalizeRow raw) = 0 := by
    simp [signed, normalizeRow, hamt]
  refine ⟨by simp [normalizeRow, hamt], ?_, ?_⟩
  · exact computeSummary_cons_zero _ _ _ _ (fun _ => hz) (fun _ => hz)
  · exact mem_listRecent_of_length_le (List.mem_cons_self _ _) (by simpa using hlen)

/-- C7 witness: the concrete no-amount row at the concrete February 2024
reference month. -/
theorem unparsable_amount_contributes_zero_witness :
    (normalizeRow rawNoAmount).amount = 0
    ∧ computeSummary [normalizeRow rawNoAmount] AccountFilter.all ⟨2024, 2, 14⟩ =
        computeSummary [] AccountFilter.all ⟨2024, 2, 14⟩
    ∧ normalizeRow rawNoAmount ∈ listRecent [normalizeRow rawNoAmount] :=
  unparsable_amount_contributes_zero rawNoAmount [] AccountFilter.all
    ⟨2024, 2, 14⟩ rfl (by norm_num)

/-- C8: a raw row with unparsable date keeps the null-date sentinel, is
excluded from both dated partitions so the summary is unchanged, and
still appears in the recent list, placed after every dated row (stated
within the 200-row display cut). -/
theorem unparsable_date_excluded_sorted_last (raw : RawRow) (rs : List Record)
    (flt : AccountFilter) (ref : Date) (hdt : raw.txn_date = none)
    (hlen : rs.length + 1 ≤ 200) :
    (normalizeRow raw).txn_date = none
    ∧ beforeB ref (normalizeRow raw) = false
    ∧ inMonthB ref (normalizeRow raw) = false
    ∧ computeSummary (normalizeRow raw :: rs) flt ref = computeSummary rs flt ref
    ∧ normalizeRow raw ∈ listRecent (normalizeRow raw :: rs)
    ∧ nullDatesLast (listRecent (normalizeRow raw :: rs)) := by
  have hn : (normalizeRow raw).txn_date = none := by simp [normalizeRow, hdt]
  have hb : beforeB ref (normalizeRow raw) = false := by simp [beforeB, hn]
  have hm : inMonthB ref (normalizeRow raw) = false := by simp [inMonthB, hn]
  refine ⟨hn, hb, hm, ?_, ?_, listRecent_nullDatesLast _⟩
  · exact computeSummary_cons_zero _ _ _ _
      (fun h => absurd h (by simp [hb])) (fun h => absurd h (by simp [hm]))
  · exact mem_listRecent_of_length_le (List.mem_cons_self _ _) (by simpa using hlen)

/-- C8 witness: the concrete no-date row next to a dated record. -/
theorem unparsable_date_excluded_sorted_last_witness :
    (normalizeRow rawNoDate).txn_date = none
    ∧ computeSummary [normalizeRow rawNoDate, recA] AccountFilter.all ⟨2024, 2, 14⟩ =
        computeSummary [recA] AccountFilter.all ⟨2024, 2, 14⟩
    ∧ normalizeRow rawNoDate ∈ listRecent [normalizeRow rawNoDate, recA] := by
  have h := unparsable_date_excluded_sorted_last rawNoDate [recA]
    AccountFilter.all ⟨2024, 2, 14⟩ rfl (by norm_num)
  exact ⟨h.1, h.2.2.2.1, h.2.2.2.2.1⟩

/-- C9: `listAccounts` lists exactly the distinct non-null account values,
without duplicates and sorted ascending; a record with a null/empty
account never passes a specific-account filter but is kept by the all
filter. -/
theorem account_null_empty_handling (rs : List Record) (r : Record)
    (a : String) (hr : r ∈ rs) (hnull : r.account = none) :
    (∀ s : String, s ∈ listAccounts rs ↔ ∃ t ∈ rs, t.account = some s)
    ∧ (listAccounts rs).Nodup
    ∧ (listAccounts rs).Sorted (fun x y => x ≤ y)
    ∧ r ∉ accountFilter (AccountFilter.acct a) rs
    ∧ r ∈ accountFilter AccountFilter.all rs
    ∧ accountFilter AccountFilter.all rs = rs := by
  refine ⟨fun s => mem_listAccounts, ?_, ?_, ?_, hr, rfl⟩
  · exact (List.perm_insertionSort _ _).symm.nodup (List.nodup_dedup _)
  · exact List.sorted_insertionSort _ _
  · unfold accountFilter
    rw [List.mem_filter]
    rintro ⟨-, hpred⟩
    rw [hnull] at hpred
    simp at hpred

/-- C9 witness: a null-account record next to an "A" record. -/
theorem account_null_empty_handling_witness :
    recNullAcct ∉ accountFilter (AccountFilter.acct ("A")) [recA, recNullAcct]
    ∧ recNullAcct ∈ accountFilter AccountFilter.all [recA, recNullAcct]
    ∧ ("A" ∈ listAccounts [recA, recNullAcct] ↔
        ∃ t ∈ [recA, recNullAcct], t.account = some ("A")) := by
  have h := account_null_empty_handling [recA, recNullAcct] recNullAcct ("A")
    (by simp) rfl
  exact ⟨h.2.2.2.1, h.2.2.2.2.1, h.1 ("A")⟩

/-- C10: the appended row stores the amount as the two-fractional-digit
string of line 77, whose value is the amount rounded to a whole number of
hundredths — so any precision beyond two decimal places is lost at
persistence time — and a blank typed account field is stored as the
placeholder "-- Select --". -/
theorem persisted_row_format (dt : Date) (t : String) (q : ℚ)
    (pm ds ch sa ca : String) :
    buildRow dt t q pm ds ch sa ca =
      [dateIso dt, t, fmt2 q, pm, ds, accountField ch, sa, ca]
    ∧ storedAmount q = (storedAmountInt q : ℚ) / 100
    ∧ (storedAmount q = q ↔ ∃ n : ℤ, q * 100 = (n : ℚ))
    ∧ accountField ("") = "-- Select --"
    ∧ storedAmount (1/1000 : ℚ) ≠ (1/1000 : ℚ)
    ∧ ∃ ip fr : String, fmt2 q = ip ++ "." ++ fr ∧ fr.length = 2 := by
  refine ⟨rfl, rfl, ⟨?_, ?_⟩, by decide, ?_, ?_⟩
  · intro h
    unfold storedAmount at h
    rw [div_eq_iff (by norm_num : (100:ℚ) ≠ 0)] at h
    exact ⟨storedAmountInt q, h.symm⟩
  · rintro ⟨n, hn⟩
    have hround : storedAmountInt q = n := by
      unfold storedAmountInt
      rw [hn]
      exact round_intCast n
    unfold storedAmount
    rw [hround, ← hn]
    field_simp
  · norm_num [storedAmount, storedAmountInt, round_eq]
  · refine ⟨(if storedAmountInt q < 0 then "-" else "") ++
      toString ((storedAmountInt q).natAbs / 100),
      pad2 ((storedAmountInt q).natAbs % 100), rfl, ?_⟩
    have hlt : (storedAmountInt q).natAbs % 100 < 100 := Nat.mod_lt _ (by norm_num)
    have hpad : ∀ k, k < 100 → (pad2 k).length = 2 := by decide
    exact hpad _ hlt
